import Mathlib

/-!
# Kinetic sculpture demo (`multiple_lights.cpp`): embedding and verified properties

The program is a single render loop.  Its arithmetic is embedded over an
arbitrary linearly ordered field `K`; the statements about geometry and
orbits take `K` to be the real numbers with the real `sin`, `cos`, inverse
square root and pi.  The external scalar functions are passed in a record
`GlmOps`, the other external collaborators (`glm::perspective`, the `Camera`
class) in a record `External`.  The globals and the locals of `main` that
live across iterations form the record `State`; the OpenGL side effects of a
frame are embedded as the list of calls the frame issues, in program order.

`glm::translate`, `glm::rotate` and `glm::scale` are right-multiplication by
the translation, rotation and scaling matrix, with matrices stored by
columns as in glm.

Arithmetic is exact, except in `mouse_callback`, whose casts to `float` and
`float` subtractions go through the rounding function `External.float`;
`roundBinary32` is that rounding for IEEE 754 binary32.
-/

namespace KineticSculpture

/-! ## glm vectors and matrices -/

/-- The type `glm::vec3`. -/
structure Vec3 (K : Type) where
  x : K
  y : K
  z : K
deriving DecidableEq, Repr

/-- The type `glm::vec4`. -/
structure Vec4 (K : Type) where
  x : K
  y : K
  z : K
  w : K
deriving DecidableEq, Repr

/-- The type `glm::mat4`, stored column by column as in glm: `c0 .. c3` are `m[0] .. m[3]`. -/
structure Mat4 (K : Type) where
  c0 : Vec4 K
  c1 : Vec4 K
  c2 : Vec4 K
  c3 : Vec4 K
deriving DecidableEq, Repr

/-- The external scalar functions the program uses (`<cmath>` and glm). -/
structure GlmOps (K : Type) where
  sin : K → K
  cos : K → K
  inversesqrt : K → K
  pi : K

section Algebra

variable {K : Type} [LinearOrderedField K]

/-- The constructor `glm::vec3(s)`: all three components equal to `s`. -/
def Vec3.splat (s : K) : Vec3 K := ⟨s, s, s⟩

/-- Componentwise sum of two `vec3` (`operator+`, used by `+=`). -/
def Vec3.add (a b : Vec3 K) : Vec3 K := ⟨a.x + b.x, a.y + b.y, a.z + b.z⟩

/-- Componentwise difference of two `vec3`. -/
def Vec3.sub (a b : Vec3 K) : Vec3 K := ⟨a.x - b.x, a.y - b.y, a.z - b.z⟩

/-- A `vec3` times a scalar. -/
def Vec3.smul (a : Vec3 K) (s : K) : Vec3 K := ⟨a.x * s, a.y * s, a.z * s⟩

/-- The function `glm::dot` on `vec3`. -/
def Vec3.dot (a b : Vec3 K) : K := a.x * b.x + a.y * b.y + a.z * b.z

/-- The function `glm::normalize`: `v * inversesqrt(dot(v, v))`. -/
def normalize (F : GlmOps K) (v : Vec3 K) : Vec3 K := v.smul (F.inversesqrt (v.dot v))

/-- The function `glm::radians`: degrees times pi / 180. -/
def radians (F : GlmOps K) (degrees : K) : K := degrees * (F.pi / 180)

/-- Componentwise sum of two `vec4`. -/
def Vec4.add (a b : Vec4 K) : Vec4 K := ⟨a.x + b.x, a.y + b.y, a.z + b.z, a.w + b.w⟩

/-- A `vec4` times a scalar. -/
def Vec4.smul (a : Vec4 K) (s : K) : Vec4 K := ⟨a.x * s, a.y * s, a.z * s, a.w * s⟩

/-- The homogeneous point `vec4(p, 1)`. -/
def Vec3.toPoint (p : Vec3 K) : Vec4 K := ⟨p.x, p.y, p.z, 1⟩

/-- Matrix times column vector: `m[0]*v.x + m[1]*v.y + m[2]*v.z + m[3]*v.w`. -/
def Mat4.mulVec (m : Mat4 K) (v : Vec4 K) : Vec4 K :=
  (((m.c0.smul v.x).add (m.c1.smul v.y)).add (m.c2.smul v.z)).add (m.c3.smul v.w)

/-- Matrix product (`operator*` of glm): column `j` of `a * b` is `a` applied to column `j` of `b`. -/
def Mat4.mul (a b : Mat4 K) : Mat4 K :=
  ⟨a.mulVec b.c0, a.mulVec b.c1, a.mulVec b.c2, a.mulVec b.c3⟩

/-- The matrix `glm::mat4(1.0f)`. -/
def Mat4.identity : Mat4 K :=
  ⟨⟨1, 0, 0, 0⟩, ⟨0, 1, 0, 0⟩, ⟨0, 0, 1, 0⟩, ⟨0, 0, 0, 1⟩⟩

/-- The translation matrix by `v`. -/
def translation (v : Vec3 K) : Mat4 K :=
  ⟨⟨1, 0, 0, 0⟩, ⟨0, 1, 0, 0⟩, ⟨0, 0, 1, 0⟩, ⟨v.x, v.y, v.z, 1⟩⟩

/-- The scaling matrix with factors `v`. -/
def scaling (v : Vec3 K) : Mat4 K :=
  ⟨⟨v.x, 0, 0, 0⟩, ⟨0, v.y, 0, 0⟩, ⟨0, 0, v.z, 0⟩, ⟨0, 0, 0, 1⟩⟩

/-- The rotation matrix by `angle` radians about the axis `v` (normalised first),
with the entries glm computes in `glm::rotate`. -/
def rotation (F : GlmOps K) (angle : K) (v : Vec3 K) : Mat4 K :=
  let c := F.cos angle
  let s := F.sin angle
  let axis := normalize F v
  let temp := axis.smul (1 - c)
  ⟨⟨c + temp.x * axis.x, temp.x * axis.y + s * axis.z, temp.x * axis.z - s * axis.y, 0⟩,
   ⟨temp.y * axis.x - s * axis.z, c + temp.y * axis.y, temp.y * axis.z + s * axis.x, 0⟩,
   ⟨temp.z * axis.x + s * axis.y, temp.z * axis.y - s * axis.x, c + temp.z * axis.z, 0⟩,
   ⟨0, 0, 0, 1⟩⟩

/-- The function `glm::translate(m, v)`: `m` times the translation matrix. -/
def translate (m : Mat4 K) (v : Vec3 K) : Mat4 K := m.mul (translation v)

/-- The function `glm::rotate(m, angle, axis)`: `m` times the rotation matrix. -/
def rotate (F : GlmOps K) (m : Mat4 K) (angle : K) (axis : Vec3 K) : Mat4 K :=
  m.mul (rotation F angle axis)

/-- The function `glm::scale(m, v)`: `m` times the scaling matrix. -/
def scale (m : Mat4 K) (v : Vec3 K) : Mat4 K := m.mul (scaling v)

end Algebra

/-! ## OpenGL calls -/

/-- The two shader programs of `main`. -/
inductive Shader where
  | lightingShader
  | lightCubeShader
deriving DecidableEq, Repr

/-- Primitive modes of `glDrawArrays`. -/
inductive DrawMode where
  | GL_TRIANGLES
deriving DecidableEq, Repr

/-- The OpenGL-facing calls a frame issues (shader helper methods and `gl*` functions). -/
inductive GLCall (K : Type) where
  | clearColor (r g b a : K)
  | clear
  | use (s : Shader)
  | setFloat (s : Shader) (name : String) (v : K)
  | setVec3 (s : Shader) (name : String) (v : Vec3 K)
  | setMat4 (s : Shader) (name : String) (m : Mat4 K)
  | activeTexture (unit : Nat)
  | bindTexture (texture : Nat)
  | bindVertexArray (vao : Nat)
  | drawArrays (mode : DrawMode) (first count : Nat)
  | swapBuffers
  | pollEvents
deriving DecidableEq, Repr

section SculptureDefs

variable {K : Type} [LinearOrderedField K]

/-- The helper `drawCube`: set the `model` uniform, bind the VAO, draw 36 vertices. -/
def drawCube (shader : Shader) (cubeVAO : Nat) (model : Mat4 K) : List (GLCall K) :=
  [GLCall.setMat4 shader "model" model,
   GLCall.bindVertexArray cubeVAO,
   GLCall.drawArrays DrawMode.GL_TRIANGLES 0 36]

namespace Sculpture

/-- Local `model` of `drawKineticSculpture`: the base pole. -/
def model : Mat4 K :=
  let model : Mat4 K := Mat4.identity
  let model := translate model ⟨0.0, 0.15, 0.0⟩
  scale model ⟨0.1, 1.2, 0.1⟩

/-- Local `hub`: the centre joint. -/
def hub (F : GlmOps K) (t : K) : Mat4 K :=
  let hub : Mat4 K := Mat4.identity
  let hub := translate hub ⟨0.0, 0.75, 0.0⟩
  let hub := rotate F hub (0.6 * F.sin (0.5 * t)) ⟨1.0, 0.0, 0.0⟩
  rotate F hub (0.6 * F.cos (0.45 * t)) ⟨0.0, 0.0, 1.0⟩

/-- Local `arm1`. -/
def arm1 (F : GlmOps K) (t : K) : Mat4 K :=
  rotate F (hub F t) t ⟨0.0, 1.0, 0.0⟩

/-- Local `bar1`. -/
def bar1 (F : GlmOps K) (t : K) : Mat4 K :=
  scale (arm1 F t) ⟨2.8, 0.06, 0.06⟩

/-- Local `end1`. -/
def end1 (F : GlmOps K) (t : K) : Mat4 K :=
  let end1 := translate (arm1 F t) ⟨1.4, -0.45 + 0.15 * F.sin (1.4 * t), 0.0⟩
  scale end1 (Vec3.splat 0.25)

/-- Local `end1b`. -/
def end1b (F : GlmOps K) (t : K) : Mat4 K :=
  let end1b := translate (arm1 F t) ⟨-1.4, -0.35 + 0.12 * F.cos (1.1 * t + 1.2), 0.0⟩
  scale end1b (Vec3.splat 0.20)

/-- Local `arm2`. -/
def arm2 (F : GlmOps K) (t : K) : Mat4 K :=
  rotate F (hub F t) (-0.5 * t) ⟨0.0, 1.0, 0.0⟩

/-- Local `bar2`. -/
def bar2 (F : GlmOps K) (t : K) : Mat4 K :=
  let bar2 := rotate F (arm2 F t) (radians F 90.0) ⟨0.0, 1.0, 0.0⟩
  scale bar2 ⟨2.2, 0.06, 0.06⟩

/-- Local `end2`. -/
def end2 (F : GlmOps K) (t : K) : Mat4 K :=
  let end2 := translate (arm2 F t) ⟨0.0, -0.40 + 0.10 * F.sin (1.8 * t + 2.0), 1.1⟩
  let end2 := rotate F end2 (1.5 * t) ⟨0.3, 0.7, 0.2⟩
  scale end2 (Vec3.splat 0.22)

/-- Local `end2b`. -/
def end2b (F : GlmOps K) (t : K) : Mat4 K :=
  let end2b := translate (arm2 F t) ⟨0.0, -0.36 + 0.13 * F.cos (1.3 * t + 1.0), -1.1⟩
  let end2b := rotate F end2b (-1.2 * t) ⟨0.5, 0.1, 0.8⟩
  scale end2b (Vec3.splat 0.18)

/-- Local `arm3`. -/
def arm3 (F : GlmOps K) (t : K) : Mat4 K :=
  rotate F (hub F t) (0.8 * F.sin (0.7 * t)) ⟨0.0, 1.0, 0.0⟩

/-- Local `bar3`. -/
def bar3 (F : GlmOps K) (t : K) : Mat4 K :=
  let bar3 := rotate F (arm3 F t) (radians F 45.0) ⟨0.0, 1.0, 0.0⟩
  scale bar3 ⟨1.8, 0.055, 0.055⟩

/-- Local `end3`. -/
def end3 (F : GlmOps K) (t : K) : Mat4 K :=
  let end3 := translate (arm3 F t) ⟨1.0, -0.30 + 0.10 * F.sin (2.2 * t + 0.4), 1.0⟩
  scale end3 (Vec3.splat 0.16)

/-- Local `hubCube`. -/
def hubCube (F : GlmOps K) (t : K) : Mat4 K :=
  scale (hub F t) (Vec3.splat 0.14)

end Sculpture

/-- The function `drawKineticSculpture`: the `drawCube` calls in program order. -/
def drawKineticSculpture (F : GlmOps K) (shader : Shader) (cubeVAO : Nat) (t : K) :
    List (GLCall K) :=
  drawCube shader cubeVAO Sculpture.model
    ++ drawCube shader cubeVAO (Sculpture.bar1 F t)
    ++ drawCube shader cubeVAO (Sculpture.end1 F t)
    ++ drawCube shader cubeVAO (Sculpture.end1b F t)
    ++ drawCube shader cubeVAO (Sculpture.bar2 F t)
    ++ drawCube shader cubeVAO (Sculpture.end2 F t)
    ++ drawCube shader cubeVAO (Sculpture.end2b F t)
    ++ drawCube shader cubeVAO (Sculpture.bar3 F t)
    ++ drawCube shader cubeVAO (Sculpture.end3 F t)
    ++ drawCube shader cubeVAO (Sculpture.hubCube F t)

/-- The matrix a call assigns to the uniform `name` of `shader`, if it does. -/
def mat4Assigned (shader : Shader) (name : String) : GLCall K → Option (Mat4 K)
  | GLCall.setMat4 s n m => if s = shader ∧ n = name then some m else none
  | _ => none

/-- The matrices assigned to the uniform `name` of `shader` by a list of calls, in order. -/
def mat4Assignments (shader : Shader) (name : String) (calls : List (GLCall K)) :
    List (Mat4 K) :=
  calls.filterMap (mat4Assigned shader name)

end SculptureDefs

/-! ## Globals, input and the render loop -/

/-- The public members of the `Camera` class of `learnopengl/camera.h`. -/
structure Camera (K : Type) where
  Position : Vec3 K
  Front : Vec3 K
  Up : Vec3 K
  Right : Vec3 K
  WorldUp : Vec3 K
  Yaw : K
  Pitch : K
  MovementSpeed : K
  MouseSensitivity : K
  Zoom : K

/-- The enumeration `Camera_Movement` of `learnopengl/camera.h`. -/
inductive Camera_Movement where
  | FORWARD
  | BACKWARD
  | LEFT
  | RIGHT
deriving DecidableEq, Repr

/-- The external collaborators of the program: the scalar functions, `glm::perspective`
and the methods of the `Camera` class, whose code is not part of this file; and `float`,
the value a number takes in the type `float`, which is what `static_cast<float>` and every
`float` subtraction in `mouse_callback` return. -/
structure External (K : Type) where
  glm : GlmOps K
  perspective : K → K → K → K → Mat4 K
  newCamera : Vec3 K → Camera K
  GetViewMatrix : Camera K → Mat4 K
  ProcessKeyboard : Camera K → Camera_Movement → K → Camera K
  ProcessMouseMovement : Camera K → K → K → Camera K
  ProcessMouseScroll : Camera K → K → Camera K
  float : K → K

/-- The keys `processInput` polls. -/
inductive Key where
  | GLFW_KEY_ESCAPE
  | GLFW_KEY_W
  | GLFW_KEY_S
  | GLFW_KEY_A
  | GLFW_KEY_D
  | GLFW_KEY_1
  | GLFW_KEY_2
  | GLFW_KEY_LEFT_SHIFT
  | GLFW_KEY_R
  | GLFW_KEY_MINUS
  | GLFW_KEY_EQUAL
deriving DecidableEq, Repr

/-- The GLFW constant `GLFW_RELEASE`. -/
def GLFW_RELEASE : Nat := 0

/-- The GLFW constant `GLFW_PRESS`. -/
def GLFW_PRESS : Nat := 1

/-- The constant `SCR_WIDTH`. -/
def SCR_WIDTH : Nat := 1280

/-- The constant `SCR_HEIGHT`. -/
def SCR_HEIGHT : Nat := 720

/-- The mutable state that lives across iterations of the render loop: the globals of the
file, the close flag of the window, and the locals of `main` declared before the loop. -/
structure State (K : Type) where
  camera : Camera K
  lastX : K
  lastY : K
  firstMouse : Bool
  deltaTime : K
  lastFrame : K
  animateSculpture : Bool
  animateLights : Bool
  showBackgroundCubes : Bool
  sculptureSpeed : K
  lightOrbitSpeed : K
  windowShouldClose : Bool
  cubeVAO : Nat
  lightCubeVAO : Nat
  diffuseMap : Nat
  specularMap : Nat
  pointLightBase : Fin 4 → Vec3 K
  cubePositions : List (Vec3 K)

/-- An event delivered to a callback during `glfwPollEvents`. -/
inductive Event (K : Type) where
  | cursorPos (xpos ypos : K)
  | scroll (xoffset yoffset : K)

/-- What one iteration of the loop reads from outside: the clock, the keyboard, and the
events delivered by `glfwPollEvents`. -/
structure FrameInput (K : Type) where
  glfwGetTime : K
  glfwGetKey : Key → Nat
  events : List (Event K)

section Program

variable {K : Type} [LinearOrderedField K]

/-- The function `glm::max(x, y)`: `(x < y) ? y : x`. -/
def glmMax (x y : K) : K := if x < y then y else x

/-- The function `glm::min(x, y)`: `(y < x) ? y : x`. -/
def glmMin (x y : K) : K := if y < x then y else x

/-- The initialiser of the local array `pointLightBase` of `main`. -/
def pointLightBase : Fin 4 → Vec3 K
  | 0 => ⟨0.0, 1.6, 0.0⟩
  | 1 => ⟨2.5, 0.8, -1.5⟩
  | 2 => ⟨-2.5, 1.2, -2.0⟩
  | 3 => ⟨0.0, 0.5, -3.0⟩

/-- The initialiser of the local vector `cubePositions` of `main`. -/
def cubePositions : List (Vec3 K) :=
  [⟨2.0, -0.4, -3.5⟩, ⟨-1.7, 0.3, -4.5⟩, ⟨1.3, -0.8, -2.5⟩, ⟨1.5, 0.2, -1.5⟩, ⟨-1.3, 0.4, -1.5⟩]

/-- The state when the render loop is entered: the initial values of the globals and of the
locals of `main`; the four object handles are whatever OpenGL returned. -/
def initialState (E : External K) (cubeVAO lightCubeVAO diffuseMap specularMap : Nat) :
    State K where
  camera := E.newCamera ⟨0.0, 1.0, 6.5⟩
  lastX := (SCR_WIDTH : K) / 2.0
  lastY := (SCR_HEIGHT : K) / 2.0
  firstMouse := true
  deltaTime := 0.0
  lastFrame := 0.0
  animateSculpture := true
  animateLights := true
  showBackgroundCubes := false
  sculptureSpeed := 0.6
  lightOrbitSpeed := 0.7
  windowShouldClose := false
  cubeVAO := cubeVAO
  lightCubeVAO := lightCubeVAO
  diffuseMap := diffuseMap
  specularMap := specularMap
  pointLightBase := pointLightBase
  cubePositions := cubePositions

/-- The function `processInput`; `glfwGetKey` is the keyboard state of the window. -/
def processInput (E : External K) (glfwGetKey : Key → Nat) (g : State K) : State K :=
  let g := if glfwGetKey Key.GLFW_KEY_ESCAPE = GLFW_PRESS then
      { g with windowShouldClose := true } else g
  let g := if glfwGetKey Key.GLFW_KEY_W = GLFW_PRESS then
      { g with camera := E.ProcessKeyboard g.camera Camera_Movement.FORWARD g.deltaTime } else g
  let g := if glfwGetKey Key.GLFW_KEY_S = GLFW_PRESS then
      { g with camera := E.ProcessKeyboard g.camera Camera_Movement.BACKWARD g.deltaTime } else g
  let g := if glfwGetKey Key.GLFW_KEY_A = GLFW_PRESS then
      { g with camera := E.ProcessKeyboard g.camera Camera_Movement.LEFT g.deltaTime } else g
  let g := if glfwGetKey Key.GLFW_KEY_D = GLFW_PRESS then
      { g with camera := E.ProcessKeyboard g.camera Camera_Movement.RIGHT g.deltaTime } else g
  let g := if glfwGetKey Key.GLFW_KEY_1 = GLFW_PRESS then
      { g with animateSculpture := true } else g
  let g := if glfwGetKey Key.GLFW_KEY_1 = GLFW_RELEASE
        ∧ glfwGetKey Key.GLFW_KEY_LEFT_SHIFT = GLFW_PRESS then
      { g with animateSculpture := !g.animateSculpture } else g
  let g := if glfwGetKey Key.GLFW_KEY_2 = GLFW_PRESS then
      { g with animateLights := true } else g
  let g := if glfwGetKey Key.GLFW_KEY_2 = GLFW_RELEASE
        ∧ glfwGetKey Key.GLFW_KEY_LEFT_SHIFT = GLFW_PRESS then
      { g with animateLights := !g.animateLights } else g
  let g := if glfwGetKey Key.GLFW_KEY_R = GLFW_PRESS then
      { g with camera := E.newCamera ⟨0.0, 1.0, 6.5⟩ } else g
  let g := if glfwGetKey Key.GLFW_KEY_MINUS = GLFW_PRESS then
      { g with sculptureSpeed := glmMax 0.1 (g.sculptureSpeed - 0.5 * g.deltaTime) } else g
  let g := if glfwGetKey Key.GLFW_KEY_EQUAL = GLFW_PRESS then
      { g with sculptureSpeed := glmMin 3.0 (g.sculptureSpeed + 0.5 * g.deltaTime) } else g
  g

/-- The callback `mouse_callback`: the two positions are cast to `float` and the two
offsets are `float` subtractions, so each is rounded by `E.float`. -/
def mouse_callback (E : External K) (xposIn yposIn : K) (g : State K) : State K :=
  let xpos := E.float xposIn
  let ypos := E.float yposIn
  let g := if g.firstMouse then
      { g with lastX := xpos, lastY := ypos, firstMouse := false } else g
  let xoffset := E.float (xpos - g.lastX)
  let yoffset := E.float (g.lastY - ypos)
  let g := { g with lastX := xpos, lastY := ypos }
  { g with camera := E.ProcessMouseMovement g.camera xoffset yoffset }

/-- The callback `scroll_callback`. -/
def scroll_callback (E : External K) (_xoffset yoffset : K) (g : State K) : State K :=
  { g with camera := E.ProcessMouseScroll g.camera yoffset }

/-- The call `glfwPollEvents`: each pending event runs its callback, in order. -/
def glfwPollEvents (E : External K) (events : List (Event K)) (g : State K) : State K :=
  events.foldl
    (fun g e =>
      match e with
      | Event.cursorPos xpos ypos => mouse_callback E xpos ypos g
      | Event.scroll xoffset yoffset => scroll_callback E xoffset yoffset g)
    g

/-- The local array `pointLightPositions` of one frame: a copy of the base positions, moved
along the orbits when `animateLights` is set. -/
def pointLightPositions (F : GlmOps K) (pointLightBase : Fin 4 → Vec3 K) (animateLights : Bool)
    (currentFrame lightOrbitSpeed : K) : Fin 4 → Vec3 K :=
  let pointLightPositions : Fin 4 → Vec3 K := fun i => pointLightBase i
  if animateLights then
    let t := currentFrame * lightOrbitSpeed
    let pointLightPositions := Function.update pointLightPositions 0
      ((pointLightPositions 0).add ⟨1.2 * F.cos t, 0.3 * F.sin (2 * t), 1.2 * F.sin t⟩)
    let pointLightPositions := Function.update pointLightPositions 1
      ((pointLightPositions 1).add
        ⟨0.9 * F.cos (-1.2 * t), 0.25 * F.cos (1.8 * t), 0.9 * F.sin (-1.2 * t)⟩)
    let pointLightPositions := Function.update pointLightPositions 2
      ((pointLightPositions 2).add
        ⟨1.6 * F.cos (0.7 * t), 0.35 * F.sin (1.3 * t), 1.6 * F.sin (0.7 * t)⟩)
    let pointLightPositions := Function.update pointLightPositions 3
      ((pointLightPositions 3).add
        ⟨0.7 * F.cos (2.1 * t), 0.20 * F.sin (2.3 * t), 0.7 * F.sin (2.1 * t)⟩)
    pointLightPositions
  else
    pointLightPositions

/-- The body of the loop "send point light uniforms" for index `i`. -/
def sendPointLight (i : Fin 4) (position : Vec3 K) : List (GLCall K) :=
  let base := "pointLights[" ++ toString i.val ++ "]"
  [GLCall.setVec3 Shader.lightingShader (base ++ ".position") position,
   GLCall.setVec3 Shader.lightingShader (base ++ ".ambient") ⟨0.05, 0.05, 0.05⟩,
   GLCall.setVec3 Shader.lightingShader (base ++ ".diffuse") ⟨0.8, 0.8, 0.8⟩,
   GLCall.setVec3 Shader.lightingShader (base ++ ".specular") ⟨1.0, 1.0, 1.0⟩,
   GLCall.setFloat Shader.lightingShader (base ++ ".constant") 1.0,
   GLCall.setFloat Shader.lightingShader (base ++ ".linear") 0.09,
   GLCall.setFloat Shader.lightingShader (base ++ ".quadratic") 0.032]

/-- The body of the loop "draw light bulbs" for one light position. -/
def drawLightBulb (position : Vec3 K) : List (GLCall K) :=
  let m : Mat4 K := Mat4.identity
  let m := translate m position
  let m := scale m (Vec3.splat 0.12)
  [GLCall.setMat4 Shader.lightCubeShader "model" m,
   GLCall.drawArrays DrawMode.GL_TRIANGLES 0 36]

/-- The body of the loop over the optional background cubes, for index `i`. -/
def drawBackgroundCube (F : GlmOps K) (i : Nat) (position : Vec3 K) : List (GLCall K) :=
  let m : Mat4 K := Mat4.identity
  let m := translate m position
  let m := rotate F m (radians F (20.0 * (i : K))) ⟨1.0, 0.3, 0.5⟩
  [GLCall.setMat4 Shader.lightingShader "model" m,
   GLCall.drawArrays DrawMode.GL_TRIANGLES 0 36]

/-- The rendering part of one loop iteration, from `glClearColor` to `glfwSwapBuffers`:
the calls it issues, in program order.  `g` is the state after `processInput`. -/
def renderFrame (E : External K) (currentFrame : K) (g : State K) : List (GLCall K) :=
  let pointLightPositions :=
    pointLightPositions E.glm g.pointLightBase g.animateLights currentFrame g.lightOrbitSpeed
  let projection :=
    E.perspective (radians E.glm g.camera.Zoom) ((SCR_WIDTH : K) / (SCR_HEIGHT : K)) 0.1 100.0
  let view := E.GetViewMatrix g.camera
  let model : Mat4 K := Mat4.identity
  let model := translate model ⟨0.0, -0.55, 0.0⟩
  let model := scale model ⟨8.0, 0.1, 8.0⟩
  [GLCall.clearColor 0.06 0.06 0.08 1.0,
   GLCall.clear,
   GLCall.use Shader.lightingShader,
   GLCall.setVec3 Shader.lightingShader "viewPos" g.camera.Position,
   GLCall.setFloat Shader.lightingShader "material.shininess" 32.0,
   GLCall.setVec3 Shader.lightingShader "dirLight.direction" ⟨-0.2, -1.0, -0.15⟩,
   GLCall.setVec3 Shader.lightingShader "dirLight.ambient" ⟨0.03, 0.03, 0.04⟩,
   GLCall.setVec3 Shader.lightingShader "dirLight.diffuse" ⟨0.25, 0.25, 0.30⟩,
   GLCall.setVec3 Shader.lightingShader "dirLight.specular" ⟨0.4, 0.4, 0.45⟩]
  ++ (List.finRange 4).flatMap (fun i => sendPointLight i (pointLightPositions i))
  ++ [GLCall.setVec3 Shader.lightingShader "spotLight.position" g.camera.Position,
      GLCall.setVec3 Shader.lightingShader "spotLight.direction" g.camera.Front,
      GLCall.setVec3 Shader.lightingShader "spotLight.ambient" ⟨0.0, 0.0, 0.0⟩,
      GLCall.setVec3 Shader.lightingShader "spotLight.diffuse" ⟨1.0, 1.0, 1.0⟩,
      GLCall.setVec3 Shader.lightingShader "spotLight.specular" ⟨1.0, 1.0, 1.0⟩,
      GLCall.setFloat Shader.lightingShader "spotLight.constant" 1.0,
      GLCall.setFloat Shader.lightingShader "spotLight.linear" 0.09,
      GLCall.setFloat Shader.lightingShader "spotLight.quadratic" 0.032,
      GLCall.setFloat Shader.lightingShader "spotLight.cutOff"
        (E.glm.cos (radians E.glm 12.5)),
      GLCall.setFloat Shader.lightingShader "spotLight.outerCutOff"
        (E.glm.cos (radians E.glm 15.0)),
      GLCall.setMat4 Shader.lightingShader "projection" projection,
      GLCall.setMat4 Shader.lightingShader "view" view,
      GLCall.activeTexture 0,
      GLCall.bindTexture g.diffuseMap,
      GLCall.activeTexture 1,
      GLCall.bindTexture g.specularMap,
      GLCall.setMat4 Shader.lightingShader "model" model,
      GLCall.bindVertexArray g.cubeVAO,
      GLCall.drawArrays DrawMode.GL_TRIANGLES 0 36]
  ++ drawKineticSculpture E.glm Shader.lightingShader g.cubeVAO
      (if g.animateSculpture then currentFrame * g.sculptureSpeed else 0.0)
  ++ (if g.showBackgroundCubes then
        g.cubePositions.enum.flatMap (fun ip => drawBackgroundCube E.glm ip.1 ip.2)
      else [])
  ++ [GLCall.use Shader.lightCubeShader,
      GLCall.setMat4 Shader.lightCubeShader "projection" projection,
      GLCall.setMat4 Shader.lightCubeShader "view" view,
      GLCall.bindVertexArray g.lightCubeVAO]
  ++ (List.finRange 4).flatMap (fun i => drawLightBulb (pointLightPositions i))
  ++ [GLCall.swapBuffers]

/-- The state in which a frame is rendered: the loop header updates `deltaTime` and
`lastFrame` from the clock and then calls `processInput`. -/
def frameState (E : External K) (inp : FrameInput K) (g : State K) : State K :=
  let currentFrame := inp.glfwGetTime
  let g := { g with deltaTime := currentFrame - g.lastFrame }
  let g := { g with lastFrame := currentFrame }
  processInput E inp.glfwGetKey g

/-- One iteration of the render loop: the new state and the calls issued. -/
def loopIteration (E : External K) (inp : FrameInput K) (g : State K) :
    State K × List (GLCall K) :=
  let currentFrame := inp.glfwGetTime
  let g := frameState E inp g
  let calls := renderFrame E currentFrame g
  let g := glfwPollEvents E inp.events g
  (g, calls ++ [GLCall.pollEvents])

/-- The render loop `while (!glfwWindowShouldClose(window))` run on a sequence of frame
inputs: the final state and all calls issued. -/
def renderLoop (E : External K) : List (FrameInput K) → State K → State K × List (GLCall K)
  | [], g => (g, [])
  | inp :: rest, g =>
      if g.windowShouldClose then (g, [])
      else
        let r := loopIteration E inp g
        let r2 := renderLoop E rest r.1
        (r2.1, r.2 ++ r2.2)

/-- The value a call assigns to the `vec3` uniform `name` of `shader`, if it does. -/
def vec3Assigned (shader : Shader) (name : String) : GLCall K → Option (Vec3 K)
  | GLCall.setVec3 s n v => if s = shader ∧ n = name then some v else none
  | _ => none

/-- The values assigned to the `vec3` uniform `name` of `shader` by a list of calls, in order. -/
def vec3Assignments (shader : Shader) (name : String) (calls : List (GLCall K)) :
    List (Vec3 K) :=
  calls.filterMap (vec3Assigned shader name)

/-- The calls of one loop iteration that come from `drawKineticSculpture`: it is called
after the 56 calls that precede it in the loop body (9 for clearing and the common and
directional-light uniforms, 4 times 7 for the point lights, 19 for the spotlight, the
matrices, the textures and the floor) and issues 30 calls. -/
def sculptureCalls (calls : List (GLCall K)) : List (GLCall K) :=
  (calls.drop 56).take 30

/-- A sample implementation of the external collaborators over given scalar functions, for
evaluating the program on concrete inputs: a camera looking down the negative z axis that
moves along its own axes, identity view and projection matrices, and exact arithmetic
(`float` rounds nothing). -/
def sampleExternal (F : GlmOps K) : External K where
  glm := F
  perspective := fun _ _ _ _ => Mat4.identity
  newCamera := fun position =>
    ⟨position, ⟨0, 0, -1⟩, ⟨0, 1, 0⟩, ⟨1, 0, 0⟩, ⟨0, 1, 0⟩, -90, 0, 2.5, 0.1, 45⟩
  GetViewMatrix := fun _ => Mat4.identity
  ProcessKeyboard := fun c direction deltaTime =>
    match direction with
    | Camera_Movement.FORWARD =>
        { c with Position := c.Position.add (c.Front.smul (c.MovementSpeed * deltaTime)) }
    | Camera_Movement.BACKWARD =>
        { c with Position := c.Position.sub (c.Front.smul (c.MovementSpeed * deltaTime)) }
    | Camera_Movement.LEFT =>
        { c with Position := c.Position.sub (c.Right.smul (c.MovementSpeed * deltaTime)) }
    | Camera_Movement.RIGHT =>
        { c with Position := c.Position.add (c.Right.smul (c.MovementSpeed * deltaTime)) }
  ProcessMouseMovement := fun c xoffset yoffset =>
    { c with Yaw := c.Yaw + xoffset * c.MouseSensitivity,
             Pitch := c.Pitch + yoffset * c.MouseSensitivity }
  ProcessMouseScroll := fun c yoffset => { c with Zoom := c.Zoom - yoffset }
  float := fun x => x

/-- A sample keyboard state: only Left Shift is held. -/
def shiftHeld : Key → Nat
  | Key.GLFW_KEY_LEFT_SHIFT => GLFW_PRESS
  | _ => GLFW_RELEASE

/-- A sample keyboard state: MINUS and EQUAL are held together. -/
def minusAndEqualHeld : Key → Nat
  | Key.GLFW_KEY_MINUS => GLFW_PRESS
  | Key.GLFW_KEY_EQUAL => GLFW_PRESS
  | _ => GLFW_RELEASE

end Program

section Binary32

variable {K : Type} [LinearOrderedField K] [FloorRing K]

end Binary32

/-! ## Algebraic lemmas -/

section Lemmas

variable {K : Type} [LinearOrderedField K]

theorem mulVec_unit_w (m : Mat4 K) : m.mulVec ⟨0, 0, 0, 1⟩ = m.c3 := by
  cases m with
  | mk c0 c1 c2 c3 =>
    cases c0; cases c1; cases c2; cases c3
    simp [Mat4.mulVec, Vec4.add, Vec4.smul]

theorem translate_origin (m : Mat4 K) (v : Vec3 K) :
    (translate m v).mulVec ⟨0, 0, 0, 1⟩ = m.mulVec v.toPoint := by
  rw [mulVec_unit_w]; rfl

theorem rotate_origin (F : GlmOps K) (m : Mat4 K) (a : K) (v : Vec3 K) :
    (rotate F m a v).mulVec ⟨0, 0, 0, 1⟩ = m.mulVec ⟨0, 0, 0, 1⟩ := by
  rw [mulVec_unit_w]; rfl

theorem scale_origin (m : Mat4 K) (v : Vec3 K) :
    (scale m v).mulVec ⟨0, 0, 0, 1⟩ = m.mulVec ⟨0, 0, 0, 1⟩ := by
  rw [mulVec_unit_w]; rfl

theorem hub_origin (F : GlmOps K) (t : K) :
    (Sculpture.hub F t).mulVec ⟨0, 0, 0, 1⟩ = ⟨0, 0.75, 0, 1⟩ := by
  simp only [Sculpture.hub, rotate_origin, translate_origin]
  norm_num [Mat4.mulVec, Mat4.identity, Vec3.toPoint, Vec4.add, Vec4.smul]

/-- C1: for every real `t`, the ten matrices `drawKineticSculpture` hands to `drawCube` are
the pole, `bar1`, `end1`, `end1b`, `bar2`, `end2`, `end2b`, `bar3`, `end3`, `hubCube`; the
matrices of `bar1`, `bar2`, `bar3` and `hubCube` send the local origin to the hub `(0, 0.75, 0)`,
and the pole matrix sends its top-face centre `(0, 0.5, 0)` to the same point. -/
theorem arms_join_at_hub (shader : Shader) (cubeVAO : Nat) (t : ℝ) :
    mat4Assignments shader "model"
        (drawKineticSculpture ⟨Real.sin, Real.cos, fun x => (Real.sqrt x)⁻¹, Real.pi⟩
          shader cubeVAO t)
      = [Sculpture.model,
         Sculpture.bar1 ⟨Real.sin, Real.cos, fun x => (Real.sqrt x)⁻¹, Real.pi⟩ t,
         Sculpture.end1 ⟨Real.sin, Real.cos, fun x => (Real.sqrt x)⁻¹, Real.pi⟩ t,
         Sculpture.end1b ⟨Real.sin, Real.cos, fun x => (Real.sqrt x)⁻¹, Real.pi⟩ t,
         Sculpture.bar2 ⟨Real.sin, Real.cos, fun x => (Real.sqrt x)⁻¹, Real.pi⟩ t,
         Sculpture.end2 ⟨Real.sin, Real.cos, fun x => (Real.sqrt x)⁻¹, Real.pi⟩ t,
         Sculpture.end2b ⟨Real.sin, Real.cos, fun x => (Real.sqrt x)⁻¹, Real.pi⟩ t,
         Sculpture.bar3 ⟨Real.sin, Real.cos, fun x => (Real.sqrt x)⁻¹, Real.pi⟩ t,
         Sculpture.end3 ⟨Real.sin, Real.cos, fun x => (Real.sqrt x)⁻¹, Real.pi⟩ t,
         Sculpture.hubCube ⟨Real.sin, Real.cos, fun x => (Real.sqrt x)⁻¹, Real.pi⟩ t]
    ∧ (Sculpture.bar1 ⟨Real.sin, Real.cos, fun x => (Real.sqrt x)⁻¹, Real.pi⟩ t).mulVec
        (Vec3.toPoint ⟨0, 0, 0⟩) = Vec3.toPoint ⟨0, 0.75, 0⟩
    ∧ (Sculpture.bar2 ⟨Real.sin, Real.cos, fun x => (Real.sqrt x)⁻¹, Real.pi⟩ t).mulVec
        (Vec3.toPoint ⟨0, 0, 0⟩) = Vec3.toPoint ⟨0, 0.75, 0⟩
    ∧ (Sculpture.bar3 ⟨Real.sin, Real.cos, fun x => (Real.sqrt x)⁻¹, Real.pi⟩ t).mulVec
        (Vec3.toPoint ⟨0, 0, 0⟩) = Vec3.toPoint ⟨0, 0.75, 0⟩
    ∧ (Sculpture.hubCube ⟨Real.sin, Real.cos, fun x => (Real.sqrt x)⁻¹, Real.pi⟩ t).mulVec
        (Vec3.toPoint ⟨0, 0, 0⟩) = Vec3.toPoint ⟨0, 0.75, 0⟩
    ∧ (Sculpture.model : Mat4 ℝ).mulVec (Vec3.toPoint ⟨0, 0.5, 0⟩) = Vec3.toPoint ⟨0, 0.75, 0⟩ := by
  refine ⟨?_, ?_, ?_, ?_, ?_, ?_⟩
  · simp [drawKineticSculpture, drawCube, mat4Assignments, mat4Assigned]
  · simp only [Sculpture.bar1, Sculpture.arm1, Vec3.toPoint, scale_origin, rotate_origin,
      hub_origin]
  · simp only [Sculpture.bar2, Sculpture.arm2, Vec3.toPoint, scale_origin, rotate_origin,
      hub_origin]
  · simp only [Sculpture.bar3, Sculpture.arm3, Vec3.toPoint, scale_origin, rotate_origin,
      hub_origin]
  · simp only [Sculpture.hubCube, Vec3.toPoint, scale_origin, hub_origin]
  · norm_num [Sculpture.model, translate, scale, translation, scaling, Mat4.mul, Mat4.mulVec,
      Mat4.identity, Vec3.toPoint, Vec4.add, Vec4.smul]


theorem orbit_radius (r u : ℝ) (hr : 0 ≤ r) :
    Real.sqrt ((r * Real.cos u) ^ 2 + (r * Real.sin u) ^ 2) = r := by
  have h : (r * Real.cos u) ^ 2 + (r * Real.sin u) ^ 2 = r ^ 2 := by
    have := Real.cos_sq_add_sin_sq u
    linear_combination r ^ 2 * this
  rw [h, Real.sqrt_sq hr]

theorem orbit_height_sin (a u : ℝ) (ha : 0 ≤ a) : |a * Real.sin u| ≤ a := by
  rw [abs_mul, abs_of_nonneg ha]
  exact mul_le_of_le_one_right ha (Real.abs_sin_le_one u)

theorem orbit_height_cos (a u : ℝ) (ha : 0 ≤ a) : |a * Real.cos u| ≤ a := by
  rw [abs_mul, abs_of_nonneg ha]
  exact mul_le_of_le_one_right ha (Real.abs_cos_le_one u)

theorem Vec3.add_sub_cancel (b o : Vec3 ℝ) : (b.add o).sub b = o := by
  cases b; cases o; simp [Vec3.add, Vec3.sub]

/-- The orbit offsets: with `animateLights` set, light `i` is its base plus the orbit vector. -/
theorem pointLightPositions_animated (F : GlmOps ℝ) (base : Fin 4 → Vec3 ℝ) (cf los : ℝ) :
    pointLightPositions F base true cf los 0
        = (base 0).add ⟨1.2 * F.cos (cf * los), 0.3 * F.sin (2 * (cf * los)),
            1.2 * F.sin (cf * los)⟩
    ∧ pointLightPositions F base true cf los 1
        = (base 1).add ⟨0.9 * F.cos (-1.2 * (cf * los)), 0.25 * F.cos (1.8 * (cf * los)),
            0.9 * F.sin (-1.2 * (cf * los))⟩
    ∧ pointLightPositions F base true cf los 2
        = (base 2).add ⟨1.6 * F.cos (0.7 * (cf * los)), 0.35 * F.sin (1.3 * (cf * los)),
            1.6 * F.sin (0.7 * (cf * los))⟩
    ∧ pointLightPositions F base true cf los 3
        = (base 3).add ⟨0.7 * F.cos (2.1 * (cf * los)), 0.20 * F.sin (2.3 * (cf * los)),
            0.7 * F.sin (2.1 * (cf * los))⟩ := by
  refine ⟨?_, ?_, ?_, ?_⟩ <;> simp [pointLightPositions, Function.update]

/-- C2: with `animateLights` set, for every frame time and orbit speed the offset of light `i`
from its base has horizontal length exactly `r_i` and vertical component at most `a_i` in
absolute value, with `(r, a)` = (1.2, 0.3), (0.9, 0.25), (1.6, 0.35), (0.7, 0.20). -/
theorem lights_stay_on_cylinders (base : Fin 4 → Vec3 ℝ) (currentFrame lightOrbitSpeed : ℝ) :
    (Real.sqrt
        (((pointLightPositions ⟨Real.sin, Real.cos, fun x => (Real.sqrt x)⁻¹, Real.pi⟩ base true
            currentFrame lightOrbitSpeed 0).sub (base 0)).x ^ 2
        + ((pointLightPositions ⟨Real.sin, Real.cos, fun x => (Real.sqrt x)⁻¹, Real.pi⟩ base true
            currentFrame lightOrbitSpeed 0).sub (base 0)).z ^ 2) = 1.2
      ∧ |((pointLightPositions ⟨Real.sin, Real.cos, fun x => (Real.sqrt x)⁻¹, Real.pi⟩ base true
            currentFrame lightOrbitSpeed 0).sub (base 0)).y| ≤ 0.3)
    ∧ (Real.sqrt
        (((pointLightPositions ⟨Real.sin, Real.cos, fun x => (Real.sqrt x)⁻¹, Real.pi⟩ base true
            currentFrame lightOrbitSpeed 1).sub (base 1)).x ^ 2
        + ((pointLightPositions ⟨Real.sin, Real.cos, fun x => (Real.sqrt x)⁻¹, Real.pi⟩ base true
            currentFrame lightOrbitSpeed 1).sub (base 1)).z ^ 2) = 0.9
      ∧ |((pointLightPositions ⟨Real.sin, Real.cos, fun x => (Real.sqrt x)⁻¹, Real.pi⟩ base true
            currentFrame lightOrbitSpeed 1).sub (base 1)).y| ≤ 0.25)
    ∧ (Real.sqrt
        (((pointLightPositions ⟨Real.sin, Real.cos, fun x => (Real.sqrt x)⁻¹, Real.pi⟩ base true
            currentFrame lightOrbitSpeed 2).sub (base 2)).x ^ 2
        + ((pointLightPositions ⟨Real.sin, Real.cos, fun x => (Real.sqrt x)⁻¹, Real.pi⟩ base true
            currentFrame lightOrbitSpeed 2).sub (base 2)).z ^ 2) = 1.6
      ∧ |((pointLightPositions ⟨Real.sin, Real.cos, fun x => (Real.sqrt x)⁻¹, Real.pi⟩ base true
            currentFrame lightOrbitSpeed 2).sub (base 2)).y| ≤ 0.35)
    ∧ (Real.sqrt
        (((pointLightPositions ⟨Real.sin, Real.cos, fun x => (Real.sqrt x)⁻¹, Real.pi⟩ base true
            currentFrame lightOrbitSpeed 3).sub (base 3)).x ^ 2
        + ((pointLightPositions ⟨Real.sin, Real.cos, fun x => (Real.sqrt x)⁻¹, Real.pi⟩ base true
            currentFrame lightOrbitSpeed 3).sub (base 3)).z ^ 2) = 0.7
      ∧ |((pointLightPositions ⟨Real.sin, Real.cos, fun x => (Real.sqrt x)⁻¹, Real.pi⟩ base true
            currentFrame lightOrbitSpeed 3).sub (base 3)).y| ≤ 0.20) := by
  obtain ⟨h0, h1, h2, h3⟩ :=
    pointLightPositions_animated ⟨Real.sin, Real.cos, fun x => (Real.sqrt x)⁻¹, Real.pi⟩ base
      currentFrame lightOrbitSpeed
  rw [h0, h1, h2, h3]
  simp only [Vec3.add_sub_cancel]
  exact ⟨⟨orbit_radius _ _ (by norm_num), orbit_height_sin _ _ (by norm_num)⟩,
    ⟨orbit_radius _ _ (by norm_num), orbit_height_cos _ _ (by norm_num)⟩,
    ⟨orbit_radius _ _ (by norm_num), orbit_height_sin _ _ (by norm_num)⟩,
    ⟨orbit_radius _ _ (by norm_num), orbit_height_sin _ _ (by norm_num)⟩⟩

theorem mulVec_mul (a b : Mat4 K) (v : Vec4 K) : (a.mul b).mulVec v = a.mulVec (b.mulVec v) := by
  cases a with
  | mk a0 a1 a2 a3 =>
    cases a0; cases a1; cases a2; cases a3
    cases b with
    | mk b0 b1 b2 b3 =>
      cases b0; cases b1; cases b2; cases b3
      cases v
      simp only [Mat4.mul, Mat4.mulVec, Vec4.add, Vec4.smul, Vec4.mk.injEq]
      refine ⟨?_, ?_, ?_, ?_⟩ <;> ring

theorem identity_mulVec (v : Vec4 K) : (Mat4.identity : Mat4 K).mulVec v = v := by
  cases v
  simp [Mat4.identity, Mat4.mulVec, Vec4.add, Vec4.smul]

theorem translation_inj (d : Vec3 K) (p q : Vec4 K)
    (h : (translation d).mulVec p = (translation d).mulVec q) : p = q := by
  obtain ⟨px, py, pz, pw⟩ := p
  obtain ⟨qx, qy, qz, qw⟩ := q
  obtain ⟨dx, dy, dz⟩ := d
  simp only [translation, Mat4.mulVec, Vec4.add, Vec4.smul, Vec4.mk.injEq] at h ⊢
  norm_num at h
  obtain ⟨h1, h2, h3, h4⟩ := h
  subst h4
  exact ⟨by linarith, by linarith, by linarith, rfl⟩

theorem rotationX_inj (a : ℝ) (p q : Vec4 ℝ)
    (h : (rotation ⟨Real.sin, Real.cos, fun x => (Real.sqrt x)⁻¹, Real.pi⟩ a ⟨1.0, 0.0, 0.0⟩).mulVec p = (rotation ⟨Real.sin, Real.cos, fun x => (Real.sqrt x)⁻¹, Real.pi⟩ a ⟨1.0, 0.0, 0.0⟩).mulVec q) :
    p = q := by
  obtain ⟨px, py, pz, pw⟩ := p
  obtain ⟨qx, qy, qz, qw⟩ := q
  have hcs := Real.cos_sq_add_sin_sq a
  simp only [rotation, normalize, Vec3.smul, Vec3.dot, Mat4.mulVec, Vec4.add, Vec4.smul,
    Vec4.mk.injEq] at h ⊢
  norm_num at h
  obtain ⟨h1, h2, h3, h4⟩ := h
  refine ⟨h1, ?_, ?_, h4⟩
  · linear_combination Real.cos a * h2 + Real.sin a * h3 - (py - qy) * hcs
  · linear_combination (-Real.sin a) * h2 + Real.cos a * h3 - (pz - qz) * hcs

theorem rotationY_inj (a : ℝ) (p q : Vec4 ℝ)
    (h : (rotation ⟨Real.sin, Real.cos, fun x => (Real.sqrt x)⁻¹, Real.pi⟩ a ⟨0.0, 1.0, 0.0⟩).mulVec p = (rotation ⟨Real.sin, Real.cos, fun x => (Real.sqrt x)⁻¹, Real.pi⟩ a ⟨0.0, 1.0, 0.0⟩).mulVec q) :
    p = q := by
  obtain ⟨px, py, pz, pw⟩ := p
  obtain ⟨qx, qy, qz, qw⟩ := q
  have hcs := Real.cos_sq_add_sin_sq a
  simp only [rotation, normalize, Vec3.smul, Vec3.dot, Mat4.mulVec, Vec4.add, Vec4.smul,
    Vec4.mk.injEq] at h ⊢
  norm_num at h
  obtain ⟨h1, h2, h3, h4⟩ := h
  refine ⟨?_, h2, ?_, h4⟩
  · linear_combination Real.cos a * h1 - Real.sin a * h3 - (px - qx) * hcs
  · linear_combination Real.sin a * h1 + Real.cos a * h3 - (pz - qz) * hcs

theorem rotationZ_inj (a : ℝ) (p q : Vec4 ℝ)
    (h : (rotation ⟨Real.sin, Real.cos, fun x => (Real.sqrt x)⁻¹, Real.pi⟩ a ⟨0.0, 0.0, 1.0⟩).mulVec p = (rotation ⟨Real.sin, Real.cos, fun x => (Real.sqrt x)⁻¹, Real.pi⟩ a ⟨0.0, 0.0, 1.0⟩).mulVec q) :
    p = q := by
  obtain ⟨px, py, pz, pw⟩ := p
  obtain ⟨qx, qy, qz, qw⟩ := q
  have hcs := Real.cos_sq_add_sin_sq a
  simp only [rotation, normalize, Vec3.smul, Vec3.dot, Mat4.mulVec, Vec4.add, Vec4.smul,
    Vec4.mk.injEq] at h ⊢
  norm_num at h
  obtain ⟨h1, h2, h3, h4⟩ := h
  refine ⟨?_, ?_, h3, h4⟩
  · linear_combination Real.cos a * h1 + Real.sin a * h2 - (px - qx) * hcs
  · linear_combination (-Real.sin a) * h1 + Real.cos a * h2 - (py - qy) * hcs

theorem hub_inj (t : ℝ) (p q : Vec4 ℝ)
    (h : (Sculpture.hub ⟨Real.sin, Real.cos, fun x => (Real.sqrt x)⁻¹, Real.pi⟩ t).mulVec p = (Sculpture.hub ⟨Real.sin, Real.cos, fun x => (Real.sqrt x)⁻¹, Real.pi⟩ t).mulVec q) : p = q := by
  simp only [Sculpture.hub, rotate, translate, mulVec_mul, identity_mulVec] at h
  exact rotationZ_inj _ _ _ (rotationX_inj _ _ _ (translation_inj _ _ _ h))

theorem arm3_inj (t : ℝ) (p q : Vec4 ℝ)
    (h : (Sculpture.arm3 ⟨Real.sin, Real.cos, fun x => (Real.sqrt x)⁻¹, Real.pi⟩ t).mulVec p = (Sculpture.arm3 ⟨Real.sin, Real.cos, fun x => (Real.sqrt x)⁻¹, Real.pi⟩ t).mulVec q) : p = q := by
  simp only [Sculpture.arm3, rotate, mulVec_mul] at h
  exact rotationY_inj _ _ _ (hub_inj _ _ _ h)

theorem toPoint_inj (p q : Vec3 K) (h : p.toPoint = q.toPoint) : p = q := by
  obtain ⟨px, py, pz⟩ := p
  obtain ⟨qx, qy, qz⟩ := q
  simp only [Vec3.toPoint, Vec4.mk.injEq, and_true] at h
  simp only [Vec3.mk.injEq]
  exact h

theorem end3_origin (F : GlmOps K) (t : K) :
    (Sculpture.end3 F t).mulVec (Vec3.toPoint ⟨0, 0, 0⟩)
      = (Sculpture.arm3 F t).mulVec
          (Vec3.toPoint ⟨1.0, -0.30 + 0.10 * F.sin (2.2 * t + 0.4), 1.0⟩) := by
  simp only [Sculpture.end3, Vec3.toPoint, scale_origin, translate_origin]

theorem bar3_direction :
    (rotation ⟨Real.sin, Real.cos, fun x => (Real.sqrt x)⁻¹, Real.pi⟩ (radians ⟨Real.sin, Real.cos, fun x => (Real.sqrt x)⁻¹, Real.pi⟩ 45.0) ⟨0.0, 1.0, 0.0⟩).mulVec ⟨1, 0, 0, 0⟩
      = ⟨√2 / 2, 0, -(√2 / 2), 0⟩ := by
  have h45 : radians ⟨Real.sin, Real.cos, fun x => (Real.sqrt x)⁻¹, Real.pi⟩ 45.0 = Real.pi / 4 := by
    simp only [radians]; ring
  rw [h45]
  simp only [rotation, normalize, Vec3.smul, Vec3.dot, Mat4.mulVec, Vec4.add, Vec4.smul,
    Real.cos_pi_div_four, Real.sin_pi_div_four]
  norm_num

theorem bar2_direction :
    (rotation ⟨Real.sin, Real.cos, fun x => (Real.sqrt x)⁻¹, Real.pi⟩ (radians ⟨Real.sin, Real.cos, fun x => (Real.sqrt x)⁻¹, Real.pi⟩ 90.0) ⟨0.0, 1.0, 0.0⟩).mulVec ⟨1, 0, 0, 0⟩
      = ⟨0, 0, -1, 0⟩ := by
  have h90 : radians ⟨Real.sin, Real.cos, fun x => (Real.sqrt x)⁻¹, Real.pi⟩ 90.0 = Real.pi / 2 := by
    simp only [radians]; ring
  rw [h90]
  simp only [rotation, normalize, Vec3.smul, Vec3.dot, Mat4.mulVec, Vec4.add, Vec4.smul,
    Real.cos_pi_div_two, Real.sin_pi_div_two]
  norm_num

/-- The four end cubes of arms 1 and 2 do hang from their bars: in the arm frame each centre
is `(s * d.x, y, s * d.z)` with `y < 0` and `|s|` at most half the bar length, `d` being the
image of the unit x axis under the extra Y rotation of the bar (none for bar 1, 90 degrees
for bar 2). -/
theorem arm1_arm2_ends_on_their_bars (t : ℝ) :
    (∃ s y : ℝ, |s| ≤ 2.8 / 2 ∧ y < 0
      ∧ (Sculpture.end1 ⟨Real.sin, Real.cos, fun x => (Real.sqrt x)⁻¹, Real.pi⟩ t).mulVec (Vec3.toPoint ⟨0, 0, 0⟩)
          = (Sculpture.arm1 ⟨Real.sin, Real.cos, fun x => (Real.sqrt x)⁻¹, Real.pi⟩ t).mulVec (Vec3.toPoint ⟨s * 1, y, s * 0⟩))
    ∧ (∃ s y : ℝ, |s| ≤ 2.8 / 2 ∧ y < 0
      ∧ (Sculpture.end1b ⟨Real.sin, Real.cos, fun x => (Real.sqrt x)⁻¹, Real.pi⟩ t).mulVec (Vec3.toPoint ⟨0, 0, 0⟩)
          = (Sculpture.arm1 ⟨Real.sin, Real.cos, fun x => (Real.sqrt x)⁻¹, Real.pi⟩ t).mulVec (Vec3.toPoint ⟨s * 1, y, s * 0⟩))
    ∧ (∃ s y : ℝ, |s| ≤ 2.2 / 2 ∧ y < 0
      ∧ (Sculpture.end2 ⟨Real.sin, Real.cos, fun x => (Real.sqrt x)⁻¹, Real.pi⟩ t).mulVec (Vec3.toPoint ⟨0, 0, 0⟩)
          = (Sculpture.arm2 ⟨Real.sin, Real.cos, fun x => (Real.sqrt x)⁻¹, Real.pi⟩ t).mulVec (Vec3.toPoint
              ⟨s * ((rotation ⟨Real.sin, Real.cos, fun x => (Real.sqrt x)⁻¹, Real.pi⟩ (radians ⟨Real.sin, Real.cos, fun x => (Real.sqrt x)⁻¹, Real.pi⟩ 90.0) ⟨0.0, 1.0, 0.0⟩).mulVec ⟨1, 0, 0, 0⟩).x, y,
               s * ((rotation ⟨Real.sin, Real.cos, fun x => (Real.sqrt x)⁻¹, Real.pi⟩ (radians ⟨Real.sin, Real.cos, fun x => (Real.sqrt x)⁻¹, Real.pi⟩ 90.0) ⟨0.0, 1.0, 0.0⟩).mulVec ⟨1, 0, 0, 0⟩).z⟩))
    ∧ (∃ s y : ℝ, |s| ≤ 2.2 / 2 ∧ y < 0
      ∧ (Sculpture.end2b ⟨Real.sin, Real.cos, fun x => (Real.sqrt x)⁻¹, Real.pi⟩ t).mulVec (Vec3.toPoint ⟨0, 0, 0⟩)
          = (Sculpture.arm2 ⟨Real.sin, Real.cos, fun x => (Real.sqrt x)⁻¹, Real.pi⟩ t).mulVec (Vec3.toPoint
              ⟨s * ((rotation ⟨Real.sin, Real.cos, fun x => (Real.sqrt x)⁻¹, Real.pi⟩ (radians ⟨Real.sin, Real.cos, fun x => (Real.sqrt x)⁻¹, Real.pi⟩ 90.0) ⟨0.0, 1.0, 0.0⟩).mulVec ⟨1, 0, 0, 0⟩).x, y,
               s * ((rotation ⟨Real.sin, Real.cos, fun x => (Real.sqrt x)⁻¹, Real.pi⟩ (radians ⟨Real.sin, Real.cos, fun x => (Real.sqrt x)⁻¹, Real.pi⟩ 90.0) ⟨0.0, 1.0, 0.0⟩).mulVec ⟨1, 0, 0, 0⟩).z⟩)) := by
  refine ⟨⟨1.4, -0.45 + 0.15 * Real.sin (1.4 * t), ?_, ?_, ?_⟩,
    ⟨-1.4, -0.35 + 0.12 * Real.cos (1.1 * t + 1.2), ?_, ?_, ?_⟩,
    ⟨-1.1, -0.40 + 0.10 * Real.sin (1.8 * t + 2.0), ?_, ?_, ?_⟩,
    ⟨1.1, -0.36 + 0.13 * Real.cos (1.3 * t + 1.0), ?_, ?_, ?_⟩⟩
  · rw [abs_of_nonneg] <;> norm_num
  · have := Real.sin_le_one (1.4 * t); linarith
  · simp only [Sculpture.end1, Vec3.toPoint, scale_origin, translate_origin]
    norm_num
  · rw [abs_neg, abs_of_nonneg] <;> norm_num
  · have := Real.cos_le_one (1.1 * t + 1.2); linarith
  · simp only [Sculpture.end1b, Vec3.toPoint, scale_origin, translate_origin]
    norm_num
  · rw [abs_neg, abs_of_nonneg] <;> norm_num
  · have := Real.sin_le_one (1.8 * t + 2.0); linarith
  · simp only [Sculpture.end2, Vec3.toPoint, scale_origin, rotate_origin, translate_origin,
      bar2_direction]
    norm_num
  · rw [abs_of_nonneg] <;> norm_num
  · have := Real.cos_le_one (1.3 * t + 1.0); linarith
  · simp only [Sculpture.end2b, Vec3.toPoint, scale_origin, rotate_origin, translate_origin,
      bar2_direction]
    norm_num

/-- C3 fails at `end3`: for every real `t`, the centre of `end3` has exactly one position `p`
in the frame of arm 3; it is below the bar (`p.y < 0`) at horizontal position `(1, 1)`, and
`(1, 1)` is no multiple at all of the horizontal direction `d` of bar 3 (the image of the
unit x axis under the 45 degree Y rotation), so it is not on the axis of the bar. -/
theorem end3_not_on_bar3_axis (t : ℝ) :
    ∃ p : Vec3 ℝ,
      (Sculpture.arm3 ⟨Real.sin, Real.cos, fun x => (Real.sqrt x)⁻¹, Real.pi⟩ t).mulVec p.toPoint
          = (Sculpture.end3 ⟨Real.sin, Real.cos, fun x => (Real.sqrt x)⁻¹, Real.pi⟩ t).mulVec (Vec3.toPoint ⟨0, 0, 0⟩)
      ∧ (∀ q : Vec3 ℝ,
          (Sculpture.arm3 ⟨Real.sin, Real.cos, fun x => (Real.sqrt x)⁻¹, Real.pi⟩ t).mulVec q.toPoint
            = (Sculpture.end3 ⟨Real.sin, Real.cos, fun x => (Real.sqrt x)⁻¹, Real.pi⟩ t).mulVec (Vec3.toPoint ⟨0, 0, 0⟩) → q = p)
      ∧ p.x = 1 ∧ p.z = 1 ∧ p.y < 0
      ∧ ¬ ∃ s : ℝ,
          p.x = s * ((rotation ⟨Real.sin, Real.cos, fun x => (Real.sqrt x)⁻¹, Real.pi⟩ (radians ⟨Real.sin, Real.cos, fun x => (Real.sqrt x)⁻¹, Real.pi⟩ 45.0) ⟨0.0, 1.0, 0.0⟩).mulVec ⟨1, 0, 0, 0⟩).x
          ∧ p.z = s * ((rotation ⟨Real.sin, Real.cos, fun x => (Real.sqrt x)⁻¹, Real.pi⟩ (radians ⟨Real.sin, Real.cos, fun x => (Real.sqrt x)⁻¹, Real.pi⟩ 45.0) ⟨0.0, 1.0, 0.0⟩).mulVec ⟨1, 0, 0, 0⟩).z := by
  refine ⟨⟨1.0, -0.30 + 0.10 * Real.sin (2.2 * t + 0.4), 1.0⟩, ?_, ?_, ?_, ?_, ?_, ?_⟩
  · rw [end3_origin]
  · intro q hq
    rw [end3_origin] at hq
    exact toPoint_inj _ _ (arm3_inj _ _ _ hq)
  · norm_num
  · norm_num
  · have := Real.sin_le_one (2.2 * t + 0.4)
    show -0.30 + 0.10 * Real.sin (2.2 * t + 0.4) < 0
    linarith
  · rintro ⟨s, hx, hz⟩
    rw [bar3_direction] at hx hz
    norm_num at hx hz
    linarith

theorem finRange_four : List.finRange 4 = [0, 1, 2, 3] := by decide

theorem pointLight_names :
    "pointLights[" ++ toString ((0 : Fin 4) : Nat) ++ "]" = "pointLights[0]"
    ∧ "pointLights[" ++ toString ((1 : Fin 4) : Nat) ++ "]" = "pointLights[1]"
    ∧ "pointLights[" ++ toString ((2 : Fin 4) : Nat) ++ "]" = "pointLights[2]"
    ∧ "pointLights[" ++ toString ((3 : Fin 4) : Nat) ++ "]" = "pointLights[3]"
    ∧ "pointLights[" ++ toString (0 : Nat) ++ "]" = "pointLights[0]"
    ∧ "pointLights[" ++ toString (1 : Nat) ++ "]" = "pointLights[1]"
    ∧ "pointLights[" ++ toString (2 : Nat) ++ "]" = "pointLights[2]"
    ∧ "pointLights[" ++ toString (3 : Nat) ++ "]" = "pointLights[3]" := by decide

theorem vec3Assignments_sculpture (F : GlmOps K) (shader s : Shader) (name : String) (vao : Nat) (t : K) :
    vec3Assignments shader name (drawKineticSculpture F s vao t) = [] := by
  simp [vec3Assignments, vec3Assigned, drawKineticSculpture, drawCube]

theorem vec3Assignments_background (F : GlmOps K) (shader : Shader) (name : String)
    (l : List (Nat × Vec3 K)) :
    vec3Assignments shader name (l.flatMap (fun ip => drawBackgroundCube F ip.1 ip.2)) = [] := by
  induction l with
  | nil => rfl
  | cons a rest ih =>
    simp only [vec3Assignments, List.flatMap_cons, List.filterMap_append] at ih ⊢
    rw [ih]
    simp [vec3Assigned, drawBackgroundCube]

/-- C4: in every loop iteration, rendered in the state left by `processInput`, the frame
assigns `spotLight.position` exactly once, with the value `camera.Position`, which is also
the one value assigned to `viewPos`; and `spotLight.direction` is assigned `camera.Front`. -/
theorem spotlight_attached_to_camera (E : External K) (inp : FrameInput K) (g : State K) :
    vec3Assignments Shader.lightingShader "spotLight.position" (loopIteration E inp g).2
        = [(frameState E inp g).camera.Position]
    ∧ vec3Assignments Shader.lightingShader "viewPos" (loopIteration E inp g).2
        = [(frameState E inp g).camera.Position]
    ∧ vec3Assignments Shader.lightingShader "spotLight.direction" (loopIteration E inp g).2
        = [(frameState E inp g).camera.Front] := by
  have hs := vec3Assignments_sculpture (K := K)
  have hb := vec3Assignments_background (K := K)
  simp only [vec3Assignments] at hs hb
  refine ⟨?_, ?_, ?_⟩ <;>
  · simp only [loopIteration, renderFrame, vec3Assignments, List.filterMap_append, hs]
    split <;>
      simp [hb, finRange_four, sendPointLight, drawLightBulb, vec3Assigned, pointLight_names]


/-- C6: for every `t`, `drawKineticSculpture` is ten `drawCube` calls, in the order pole,
`bar1`, `end1`, `end1b`, `bar2`, `end2`, `end2b`, `bar3`, `end3`, `hubCube`; each sets the
`model` uniform, binds the `cubeVAO` passed as argument and draws 36 vertices as
`GL_TRIANGLES`, so the calls differ only in the model matrix. -/
theorem sculpture_is_ten_cubes (F : GlmOps K) (shader : Shader) (cubeVAO : Nat) (t : K) :
    drawKineticSculpture F shader cubeVAO t
      = [Sculpture.model, Sculpture.bar1 F t, Sculpture.end1 F t, Sculpture.end1b F t,
         Sculpture.bar2 F t, Sculpture.end2 F t, Sculpture.end2b F t,
         Sculpture.bar3 F t, Sculpture.end3 F t, Sculpture.hubCube F t].flatMap
          (fun model =>
            [GLCall.setMat4 shader "model" model,
             GLCall.bindVertexArray cubeVAO,
             GLCall.drawArrays DrawMode.GL_TRIANGLES 0 36])
    ∧ [Sculpture.model, Sculpture.bar1 F t, Sculpture.end1 F t, Sculpture.end1b F t,
         Sculpture.bar2 F t, Sculpture.end2 F t, Sculpture.end2b F t,
         Sculpture.bar3 F t, Sculpture.end3 F t, Sculpture.hubCube F t].length = 10
    ∧ ∀ model : Mat4 K,
        drawCube shader cubeVAO model
          = [GLCall.setMat4 shader "model" model,
             GLCall.bindVertexArray cubeVAO,
             GLCall.drawArrays DrawMode.GL_TRIANGLES 0 36] := by
  refine ⟨?_, rfl, fun _ => rfl⟩
  simp [drawKineticSculpture, drawCube]

theorem sculptureCalls_loopIteration (E : External K) (inp : FrameInput K) (g : State K) :
    sculptureCalls (loopIteration E inp g).2
      = drawKineticSculpture E.glm Shader.lightingShader (frameState E inp g).cubeVAO
          (if (frameState E inp g).animateSculpture then
            inp.glfwGetTime * (frameState E inp g).sculptureSpeed else 0.0) := by
  simp [sculptureCalls, loopIteration, renderFrame, finRange_four, sendPointLight,
    drawKineticSculpture, drawCube]


/-- C7: in a loop iteration whose state after `processInput` has `animateSculpture` false,
the sculpture is drawn with time parameter 0, whatever the clock and `sculptureSpeed` are;
with `animateSculpture` true it is drawn with `currentFrame * sculptureSpeed`; hence any
two iterations with `animateSculpture` false assign the same ten sculpture matrices. -/
theorem paused_sculpture_is_frozen (E : External K) (inp inp' : FrameInput K)
    (g g' : State K) :
    ((frameState E inp g).animateSculpture = false →
      sculptureCalls (loopIteration E inp g).2
        = drawKineticSculpture E.glm Shader.lightingShader (frameState E inp g).cubeVAO 0)
    ∧ ((frameState E inp g).animateSculpture = true →
      sculptureCalls (loopIteration E inp g).2
        = drawKineticSculpture E.glm Shader.lightingShader (frameState E inp g).cubeVAO
            (inp.glfwGetTime * (frameState E inp g).sculptureSpeed))
    ∧ ((frameState E inp g).animateSculpture = false →
       (frameState E inp' g').animateSculpture = false →
        mat4Assignments Shader.lightingShader "model" (sculptureCalls (loopIteration E inp g).2)
          = mat4Assignments Shader.lightingShader "model"
              (sculptureCalls (loopIteration E inp' g').2)
        ∧ (mat4Assignments Shader.lightingShader "model"
              (sculptureCalls (loopIteration E inp g).2)).length = 10) := by
  refine ⟨fun h => ?_, fun h => ?_, fun h h' => ?_⟩
  · rw [sculptureCalls_loopIteration, h]
    norm_num
  · rw [sculptureCalls_loopIteration, h]
    simp
  · rw [sculptureCalls_loopIteration, sculptureCalls_loopIteration, h, h']
    simp [drawKineticSculpture, drawCube, mat4Assignments, mat4Assigned]

/-- Witness for C7: from the initial state, with Left Shift held (key 1 released), the
frames at clock 1 and at clock 2 are both paused and assign the same sculpture matrices. -/
theorem paused_sculpture_is_frozen_witness :
    (frameState (sampleExternal ⟨Real.sin, Real.cos, fun x => (Real.sqrt x)⁻¹, Real.pi⟩) ⟨1, shiftHeld, []⟩
        (initialState (sampleExternal ⟨Real.sin, Real.cos, fun x => (Real.sqrt x)⁻¹, Real.pi⟩) 1 2 3 4)).animateSculpture = false
    ∧ (frameState (sampleExternal ⟨Real.sin, Real.cos, fun x => (Real.sqrt x)⁻¹, Real.pi⟩) ⟨2, shiftHeld, []⟩
        (initialState (sampleExternal ⟨Real.sin, Real.cos, fun x => (Real.sqrt x)⁻¹, Real.pi⟩) 1 2 3 4)).animateSculpture = false
    ∧ mat4Assignments Shader.lightingShader "model"
        (sculptureCalls (loopIteration (sampleExternal ⟨Real.sin, Real.cos, fun x => (Real.sqrt x)⁻¹, Real.pi⟩) ⟨1, shiftHeld, []⟩
          (initialState (sampleExternal ⟨Real.sin, Real.cos, fun x => (Real.sqrt x)⁻¹, Real.pi⟩) 1 2 3 4)).2)
      = mat4Assignments Shader.lightingShader "model"
        (sculptureCalls (loopIteration (sampleExternal ⟨Real.sin, Real.cos, fun x => (Real.sqrt x)⁻¹, Real.pi⟩) ⟨2, shiftHeld, []⟩
          (initialState (sampleExternal ⟨Real.sin, Real.cos, fun x => (Real.sqrt x)⁻¹, Real.pi⟩) 1 2 3 4)).2) :=
  ⟨rfl, rfl,
    ((paused_sculpture_is_frozen (sampleExternal ⟨Real.sin, Real.cos, fun x => (Real.sqrt x)⁻¹, Real.pi⟩) ⟨1, shiftHeld, []⟩ ⟨2, shiftHeld, []⟩
      (initialState (sampleExternal ⟨Real.sin, Real.cos, fun x => (Real.sqrt x)⁻¹, Real.pi⟩) 1 2 3 4)
      (initialState (sampleExternal ⟨Real.sin, Real.cos, fun x => (Real.sqrt x)⁻¹, Real.pi⟩) 1 2 3 4)).2.2 rfl rfl).1⟩


theorem processInput_pointLightBase (E : External K) (keys : Key → Nat) (g : State K) :
    (processInput E keys g).pointLightBase = g.pointLightBase := by
  simp only [processInput, apply_ite State.pointLightBase, ite_self]

theorem processInput_lightOrbitSpeed (E : External K) (keys : Key → Nat) (g : State K) :
    (processInput E keys g).lightOrbitSpeed = g.lightOrbitSpeed := by
  simp only [processInput, apply_ite State.lightOrbitSpeed, ite_self]

theorem glfwPollEvents_constants (E : External K) (events : List (Event K)) (g : State K) :
    (glfwPollEvents E events g).pointLightBase = g.pointLightBase
    ∧ (glfwPollEvents E events g).lightOrbitSpeed = g.lightOrbitSpeed
    ∧ (glfwPollEvents E events g).sculptureSpeed = g.sculptureSpeed
    ∧ (glfwPollEvents E events g).lastFrame = g.lastFrame
    ∧ (glfwPollEvents E events g).windowShouldClose = g.windowShouldClose := by
  induction events generalizing g with
  | nil => exact ⟨rfl, rfl, rfl, rfl, rfl⟩
  | cons e rest ih =>
    cases e with
    | cursorPos x y =>
      have h := ih (mouse_callback E x y g)
      simp only [glfwPollEvents, List.foldl_cons] at h ⊢
      simp only [h]
      simp only [mouse_callback, apply_ite State.pointLightBase, apply_ite State.lightOrbitSpeed,
        apply_ite State.sculptureSpeed, apply_ite State.lastFrame,
        apply_ite State.windowShouldClose, ite_self, and_self]
    | scroll x y =>
      have h := ih (scroll_callback E x y g)
      simp only [glfwPollEvents, List.foldl_cons] at h ⊢
      simp only [h]
      simp only [scroll_callback, and_self]

theorem frameState_constants (E : External K) (inp : FrameInput K) (g : State K) :
    (frameState E inp g).pointLightBase = g.pointLightBase
    ∧ (frameState E inp g).lightOrbitSpeed = g.lightOrbitSpeed := by
  simp only [frameState, processInput_pointLightBase, processInput_lightOrbitSpeed, and_self]

theorem loopIteration_constants (E : External K) (inp : FrameInput K) (g : State K) :
    (loopIteration E inp g).1.pointLightBase = g.pointLightBase
    ∧ (loopIteration E inp g).1.lightOrbitSpeed = g.lightOrbitSpeed := by
  obtain ⟨h1, h2, -, -, -⟩ := glfwPollEvents_constants E inp.events (frameState E inp g)
  obtain ⟨h3, h4⟩ := frameState_constants E inp g
  exact ⟨h1.trans h3, h2.trans h4⟩

theorem renderLoop_constants (E : External K) (inputs : List (FrameInput K)) (g : State K) :
    (renderLoop E inputs g).1.pointLightBase = g.pointLightBase
    ∧ (renderLoop E inputs g).1.lightOrbitSpeed = g.lightOrbitSpeed := by
  induction inputs generalizing g with
  | nil => exact ⟨rfl, rfl⟩
  | cons inp rest ih =>
    simp only [renderLoop]
    split
    · exact ⟨rfl, rfl⟩
    · obtain ⟨h1, h2⟩ := ih (loopIteration E inp g).1
      obtain ⟨h3, h4⟩ := loopIteration_constants E inp g
      exact ⟨h1.trans h3, h2.trans h4⟩

/-- C8: after any history of loop iterations, in the state in which a frame is rendered:
`pointLightBase` is still the array the loop started with; if `animateLights` is false every
`pointLightPositions[i]` equals `pointLightBase[i]`; and if `animateLights` is true the
positions are the ones computed from the starting base, the starting orbit speed and the
clock of this frame only, so they do not depend on whether animation was paused before.
A single iteration leaves `pointLightBase` unchanged as well. -/
theorem paused_lights_sit_at_base (E : External K) (inputs : List (FrameInput K))
    (inp : FrameInput K) (g : State K) :
    (frameState E inp (renderLoop E inputs g).1).pointLightBase = g.pointLightBase
    ∧ (loopIteration E inp g).1.pointLightBase = g.pointLightBase
    ∧ ((frameState E inp (renderLoop E inputs g).1).animateLights = false →
        ∀ i : Fin 4,
          pointLightPositions E.glm (frameState E inp (renderLoop E inputs g).1).pointLightBase
            (frameState E inp (renderLoop E inputs g).1).animateLights inp.glfwGetTime
            (frameState E inp (renderLoop E inputs g).1).lightOrbitSpeed i
          = g.pointLightBase i)
    ∧ ((frameState E inp (renderLoop E inputs g).1).animateLights = true →
        pointLightPositions E.glm (frameState E inp (renderLoop E inputs g).1).pointLightBase
            (frameState E inp (renderLoop E inputs g).1).animateLights inp.glfwGetTime
            (frameState E inp (renderLoop E inputs g).1).lightOrbitSpeed
          = pointLightPositions E.glm g.pointLightBase true inp.glfwGetTime
              g.lightOrbitSpeed) := by
  obtain ⟨hb, hs⟩ := renderLoop_constants E inputs g
  have hb2 : (frameState E inp (renderLoop E inputs g).1).pointLightBase = g.pointLightBase :=
    (frameState_constants E inp _).1.trans hb
  have hs2 : (frameState E inp (renderLoop E inputs g).1).lightOrbitSpeed
      = g.lightOrbitSpeed :=
    (frameState_constants E inp _).2.trans hs
  refine ⟨hb2, (loopIteration_constants E inp g).1, fun h i => ?_, fun h => ?_⟩
  · rw [h, hb2]
    simp [pointLightPositions]
  · rw [h, hb2, hs2]

/-- Witness for C8: from the initial state, a frame at clock 1 with Left Shift held (key 2
released) has `animateLights` false, and light 0 is at its base position `(0, 1.6, 0)`. -/
theorem paused_lights_sit_at_base_witness :
    (frameState (sampleExternal ⟨Real.sin, Real.cos, fun x => (Real.sqrt x)⁻¹, Real.pi⟩) ⟨1, shiftHeld, []⟩
      (renderLoop (sampleExternal ⟨Real.sin, Real.cos, fun x => (Real.sqrt x)⁻¹, Real.pi⟩) [] (initialState (sampleExternal ⟨Real.sin, Real.cos, fun x => (Real.sqrt x)⁻¹, Real.pi⟩) 1 2 3 4)).1).animateLights
        = false
    ∧ pointLightPositions ⟨Real.sin, Real.cos, fun x => (Real.sqrt x)⁻¹, Real.pi⟩
        (frameState (sampleExternal ⟨Real.sin, Real.cos, fun x => (Real.sqrt x)⁻¹, Real.pi⟩) ⟨1, shiftHeld, []⟩
          (renderLoop (sampleExternal ⟨Real.sin, Real.cos, fun x => (Real.sqrt x)⁻¹, Real.pi⟩) []
            (initialState (sampleExternal ⟨Real.sin, Real.cos, fun x => (Real.sqrt x)⁻¹, Real.pi⟩) 1 2 3 4)).1).pointLightBase
        (frameState (sampleExternal ⟨Real.sin, Real.cos, fun x => (Real.sqrt x)⁻¹, Real.pi⟩) ⟨1, shiftHeld, []⟩
          (renderLoop (sampleExternal ⟨Real.sin, Real.cos, fun x => (Real.sqrt x)⁻¹, Real.pi⟩) []
            (initialState (sampleExternal ⟨Real.sin, Real.cos, fun x => (Real.sqrt x)⁻¹, Real.pi⟩) 1 2 3 4)).1).animateLights
        1
        (frameState (sampleExternal ⟨Real.sin, Real.cos, fun x => (Real.sqrt x)⁻¹, Real.pi⟩) ⟨1, shiftHeld, []⟩
          (renderLoop (sampleExternal ⟨Real.sin, Real.cos, fun x => (Real.sqrt x)⁻¹, Real.pi⟩) []
            (initialState (sampleExternal ⟨Real.sin, Real.cos, fun x => (Real.sqrt x)⁻¹, Real.pi⟩) 1 2 3 4)).1).lightOrbitSpeed 0
      = ⟨0.0, 1.6, 0.0⟩ :=
  ⟨rfl,
    (paused_lights_sit_at_base (sampleExternal ⟨Real.sin, Real.cos, fun x => (Real.sqrt x)⁻¹, Real.pi⟩) [] ⟨1, shiftHeld, []⟩
      (initialState (sampleExternal ⟨Real.sin, Real.cos, fun x => (Real.sqrt x)⁻¹, Real.pi⟩) 1 2 3 4)).2.2.1 rfl 0⟩


theorem processInput_sculptureSpeed (E : External K) (keys : Key → Nat) (g : State K) :
    (processInput E keys g).sculptureSpeed =
      if keys Key.GLFW_KEY_EQUAL = GLFW_PRESS then
        glmMin 3.0
          ((if keys Key.GLFW_KEY_MINUS = GLFW_PRESS then
              glmMax 0.1 (g.sculptureSpeed - 0.5 * g.deltaTime)
            else g.sculptureSpeed) + 0.5 * g.deltaTime)
      else if keys Key.GLFW_KEY_MINUS = GLFW_PRESS then
        glmMax 0.1 (g.sculptureSpeed - 0.5 * g.deltaTime)
      else g.sculptureSpeed := by
  simp only [processInput, apply_ite State.sculptureSpeed, apply_ite State.deltaTime, ite_self]

theorem glmMax_bounds (s d : K) (hd : 0 ≤ d) (hhi : s ≤ 3.0) :
    0.1 ≤ glmMax 0.1 (s - 0.5 * d) ∧ glmMax 0.1 (s - 0.5 * d) ≤ 3.0 := by
  unfold glmMax
  split
  · constructor <;> linarith
  · constructor <;> norm_num

theorem glmMin_bounds (s d : K) (hd : 0 ≤ d) (hlo : 0.1 ≤ s) :
    0.1 ≤ glmMin 3.0 (s + 0.5 * d) ∧ glmMin 3.0 (s + 0.5 * d) ≤ 3.0 := by
  unfold glmMin
  split
  · constructor <;> linarith
  · constructor <;> norm_num

theorem processInput_sculptureSpeed_bounds (E : External K) (keys : Key → Nat) (g : State K)
    (hd : 0 ≤ g.deltaTime) (hlo : 0.1 ≤ g.sculptureSpeed) (hhi : g.sculptureSpeed ≤ 3.0) :
    0.1 ≤ (processInput E keys g).sculptureSpeed
    ∧ (processInput E keys g).sculptureSpeed ≤ 3.0 := by
  rw [processInput_sculptureSpeed]
  have hmax := glmMax_bounds g.sculptureSpeed g.deltaTime hd hhi
  split
  · split
    · exact glmMin_bounds _ _ hd hmax.1
    · exact glmMin_bounds _ _ hd hlo
  · split
    · exact hmax
    · exact ⟨hlo, hhi⟩

theorem loopIteration_sculptureSpeed_bounds (E : External K) (inp : FrameInput K) (g : State K)
    (hd : g.lastFrame ≤ inp.glfwGetTime) (hlo : 0.1 ≤ g.sculptureSpeed)
    (hhi : g.sculptureSpeed ≤ 3.0) :
    (0.1 ≤ (loopIteration E inp g).1.sculptureSpeed
      ∧ (loopIteration E inp g).1.sculptureSpeed ≤ 3.0)
    ∧ (loopIteration E inp g).1.lastFrame = inp.glfwGetTime := by
  obtain ⟨-, -, h3, h4, -⟩ := glfwPollEvents_constants E inp.events (frameState E inp g)
  have hf : (frameState E inp g).lastFrame = inp.glfwGetTime := by
    simp only [frameState, processInput, apply_ite State.lastFrame, ite_self]
  refine ⟨?_, h4.trans hf⟩
  show 0.1 ≤ (glfwPollEvents E inp.events (frameState E inp g)).sculptureSpeed
    ∧ (glfwPollEvents E inp.events (frameState E inp g)).sculptureSpeed ≤ 3.0
  rw [h3]
  exact processInput_sculptureSpeed_bounds E inp.glfwGetKey _ (sub_nonneg.mpr hd) hlo hhi

theorem renderLoop_sculptureSpeed_bounds (E : External K) (inputs : List (FrameInput K))
    (g : State K)
    (hclock : List.Chain (fun a b => a ≤ b) g.lastFrame (inputs.map FrameInput.glfwGetTime))
    (hlo : 0.1 ≤ g.sculptureSpeed) (hhi : g.sculptureSpeed ≤ 3.0) :
    0.1 ≤ (renderLoop E inputs g).1.sculptureSpeed
    ∧ (renderLoop E inputs g).1.sculptureSpeed ≤ 3.0 := by
  induction inputs generalizing g with
  | nil => exact ⟨hlo, hhi⟩
  | cons inp rest ih =>
    simp only [List.map_cons, List.chain_cons] at hclock
    simp only [renderLoop]
    split
    · exact ⟨hlo, hhi⟩
    · obtain ⟨⟨h1, h2⟩, h3⟩ := loopIteration_sculptureSpeed_bounds E inp g hclock.1 hlo hhi
      exact ih _ (by rw [h3]; exact hclock.2) h1 h2

/-- C9: `processInput` keeps `sculptureSpeed` within [0.1, 3.0]: for every keyboard state
(MINUS and EQUAL may be pressed together) and every state with `deltaTime` at least 0, if
`sculptureSpeed` is in the range before the call it is in the range after it.  The initial
value 0.6 is in the range, so the bound holds after any run of the render loop whose clock
does not go backwards from the initial `lastFrame` = 0. -/
theorem sculptureSpeed_stays_in_range (E : External K) (keys : Key → Nat) (g : State K)
    (hd : 0 ≤ g.deltaTime) (hlo : 0.1 ≤ g.sculptureSpeed) (hhi : g.sculptureSpeed ≤ 3.0) :
    (0.1 ≤ (processInput E keys g).sculptureSpeed
      ∧ (processInput E keys g).sculptureSpeed ≤ 3.0)
    ∧ (∀ cubeVAO lightCubeVAO diffuseMap specularMap : Nat,
        (initialState E cubeVAO lightCubeVAO diffuseMap specularMap).sculptureSpeed = 0.6)
    ∧ ∀ (cubeVAO lightCubeVAO diffuseMap specularMap : Nat) (inputs : List (FrameInput K)),
        List.Chain (fun a b => a ≤ b) 0 (inputs.map FrameInput.glfwGetTime) →
        0.1 ≤ (renderLoop E inputs
                (initialState E cubeVAO lightCubeVAO diffuseMap specularMap)).1.sculptureSpeed
        ∧ (renderLoop E inputs
                (initialState E cubeVAO lightCubeVAO diffuseMap specularMap)).1.sculptureSpeed
            ≤ 3.0 := by
  refine ⟨processInput_sculptureSpeed_bounds E keys g hd hlo hhi, fun _ _ _ _ => rfl, ?_⟩
  intro a b c d inputs hclock
  apply renderLoop_sculptureSpeed_bounds
  · have h0 : (initialState E a b c d).lastFrame = 0 := by norm_num [initialState]
    rw [h0]
    exact hclock
  · norm_num [initialState]
  · norm_num [initialState]

/-- Witness for C9: the initial state with `deltaTime` set to 1 satisfies the hypotheses, and
with MINUS and EQUAL held together the speed goes 0.6, 0.1, 0.6 and ends within the range. -/
theorem sculptureSpeed_stays_in_range_witness :
    (0 : ℝ) ≤ 1 ∧ (0.1 : ℝ) ≤ 0.6 ∧ (0.6 : ℝ) ≤ 3.0
    ∧ (processInput (sampleExternal ⟨Real.sin, Real.cos, fun x => (Real.sqrt x)⁻¹, Real.pi⟩) minusAndEqualHeld
        { initialState (sampleExternal ⟨Real.sin, Real.cos, fun x => (Real.sqrt x)⁻¹, Real.pi⟩) 1 2 3 4 with
          deltaTime := (1 : ℝ) }).sculptureSpeed = 0.6
    ∧ 0.1 ≤ (processInput (sampleExternal ⟨Real.sin, Real.cos, fun x => (Real.sqrt x)⁻¹, Real.pi⟩)
        minusAndEqualHeld
        { initialState (sampleExternal ⟨Real.sin, Real.cos, fun x => (Real.sqrt x)⁻¹, Real.pi⟩) 1 2 3 4 with
          deltaTime := (1 : ℝ) }).sculptureSpeed
    ∧ (processInput (sampleExternal ⟨Real.sin, Real.cos, fun x => (Real.sqrt x)⁻¹, Real.pi⟩)
        minusAndEqualHeld
        { initialState (sampleExternal ⟨Real.sin, Real.cos, fun x => (Real.sqrt x)⁻¹, Real.pi⟩) 1 2 3 4 with
          deltaTime := (1 : ℝ) }).sculptureSpeed ≤ 3.0 :=
  ⟨by norm_num, by norm_num, by norm_num,
    by norm_num [processInput_sculptureSpeed, minusAndEqualHeld, GLFW_PRESS, initialState,
      glmMax, glmMin],
    (sculptureSpeed_stays_in_range (sampleExternal ⟨Real.sin, Real.cos, fun x => (Real.sqrt x)⁻¹, Real.pi⟩)
      minusAndEqualHeld
      { initialState (sampleExternal ⟨Real.sin, Real.cos, fun x => (Real.sqrt x)⁻¹, Real.pi⟩) 1 2 3 4 with
        deltaTime := (1 : ℝ) }
      (by norm_num) (by norm_num [initialState]) (by norm_num [initialState])).1⟩


theorem processInput_animateSculpture (E : External K) (keys : Key → Nat) (g : State K) :
    (processInput E keys g).animateSculpture =
      if keys Key.GLFW_KEY_1 = GLFW_RELEASE ∧ keys Key.GLFW_KEY_LEFT_SHIFT = GLFW_PRESS then
        !(if keys Key.GLFW_KEY_1 = GLFW_PRESS then true else g.animateSculpture)
      else if keys Key.GLFW_KEY_1 = GLFW_PRESS then true else g.animateSculpture := by
  simp only [processInput, apply_ite State.animateSculpture, ite_self]

theorem processInput_animateLights (E : External K) (keys : Key → Nat) (g : State K) :
    (processInput E keys g).animateLights =
      if keys Key.GLFW_KEY_2 = GLFW_RELEASE ∧ keys Key.GLFW_KEY_LEFT_SHIFT = GLFW_PRESS then
        !(if keys Key.GLFW_KEY_2 = GLFW_PRESS then true else g.animateLights)
      else if keys Key.GLFW_KEY_2 = GLFW_PRESS then true else g.animateLights := by
  simp only [processInput, apply_ite State.animateLights, ite_self]

/-- C10: when every key reads as `GLFW_PRESS` or `GLFW_RELEASE`, one call of `processInput`
leaves `animateSculpture` true if key 1 is pressed, negated if key 1 is released and Left
Shift is pressed, and unchanged otherwise; with Left Shift held and key 1 released two
consecutive calls restore it.  The same holds for `animateLights` with key 2, and neither
flag depends on the state of the other flag's key. -/
theorem toggle_semantics (E : External K) (keys : Key → Nat) (g : State K)
    (hkeys : ∀ k, keys k = GLFW_PRESS ∨ keys k = GLFW_RELEASE) :
    (processInput E keys g).animateSculpture
        = (if keys Key.GLFW_KEY_1 = GLFW_PRESS then true
           else if keys Key.GLFW_KEY_LEFT_SHIFT = GLFW_PRESS then !g.animateSculpture
           else g.animateSculpture)
    ∧ (processInput E keys g).animateLights
        = (if keys Key.GLFW_KEY_2 = GLFW_PRESS then true
           else if keys Key.GLFW_KEY_LEFT_SHIFT = GLFW_PRESS then !g.animateLights
           else g.animateLights)
    ∧ (keys Key.GLFW_KEY_1 = GLFW_RELEASE → keys Key.GLFW_KEY_LEFT_SHIFT = GLFW_PRESS →
        (processInput E keys (processInput E keys g)).animateSculpture = g.animateSculpture)
    ∧ (keys Key.GLFW_KEY_2 = GLFW_RELEASE → keys Key.GLFW_KEY_LEFT_SHIFT = GLFW_PRESS →
        (processInput E keys (processInput E keys g)).animateLights = g.animateLights)
    ∧ (∀ keys2 : Key → Nat, (∀ k, k ≠ Key.GLFW_KEY_2 → keys2 k = keys k) →
        (processInput E keys2 g).animateSculpture = (processInput E keys g).animateSculpture)
    ∧ (∀ keys1 : Key → Nat, (∀ k, k ≠ Key.GLFW_KEY_1 → keys1 k = keys k) →
        (processInput E keys1 g).animateLights = (processInput E keys g).animateLights) := by
  refine ⟨?_, ?_, ?_, ?_, ?_, ?_⟩
  · rw [processInput_animateSculpture]
    rcases hkeys Key.GLFW_KEY_1 with h | h <;> simp [h, GLFW_PRESS, GLFW_RELEASE]
  · rw [processInput_animateLights]
    rcases hkeys Key.GLFW_KEY_2 with h | h <;> simp [h, GLFW_PRESS, GLFW_RELEASE]
  · intro h1 h2
    simp [processInput_animateSculpture, h1, h2, GLFW_PRESS, GLFW_RELEASE]
  · intro h1 h2
    simp [processInput_animateLights, h1, h2, GLFW_PRESS, GLFW_RELEASE]
  · intro keys2 h
    rw [processInput_animateSculpture, processInput_animateSculpture,
      h Key.GLFW_KEY_1 (by decide), h Key.GLFW_KEY_LEFT_SHIFT (by decide)]
  · intro keys1 h
    rw [processInput_animateLights, processInput_animateLights,
      h Key.GLFW_KEY_2 (by decide), h Key.GLFW_KEY_LEFT_SHIFT (by decide)]

/-- Witness for C10: with only Left Shift held every key reads as press or release, and one
call of `processInput` on the initial state turns `animateSculpture` from true to false. -/
theorem toggle_semantics_witness :
    (∀ k, shiftHeld k = GLFW_PRESS ∨ shiftHeld k = GLFW_RELEASE)
    ∧ (processInput (sampleExternal ⟨Real.sin, Real.cos, fun x => (Real.sqrt x)⁻¹, Real.pi⟩) shiftHeld
        (initialState (sampleExternal ⟨Real.sin, Real.cos, fun x => (Real.sqrt x)⁻¹, Real.pi⟩) 1 2 3 4)).animateSculpture = false
    ∧ (processInput (sampleExternal ⟨Real.sin, Real.cos, fun x => (Real.sqrt x)⁻¹, Real.pi⟩) shiftHeld
        (processInput (sampleExternal ⟨Real.sin, Real.cos, fun x => (Real.sqrt x)⁻¹, Real.pi⟩) shiftHeld
          (initialState (sampleExternal ⟨Real.sin, Real.cos, fun x => (Real.sqrt x)⁻¹, Real.pi⟩) 1 2 3 4))).animateSculpture = true :=
  ⟨by intro k; cases k <;> simp [shiftHeld],
    (toggle_semantics (sampleExternal ⟨Real.sin, Real.cos, fun x => (Real.sqrt x)⁻¹, Real.pi⟩) shiftHeld (initialState (sampleExternal ⟨Real.sin, Real.cos, fun x => (Real.sqrt x)⁻¹, Real.pi⟩) 1 2 3 4)
      (by intro k; cases k <;> simp [shiftHeld])).1,
    (toggle_semantics (sampleExternal ⟨Real.sin, Real.cos, fun x => (Real.sqrt x)⁻¹, Real.pi⟩) shiftHeld (initialState (sampleExternal ⟨Real.sin, Real.cos, fun x => (Real.sqrt x)⁻¹, Real.pi⟩) 1 2 3 4)
      (by intro k; cases k <;> simp [shiftHeld])).2.2.1 rfl rfl⟩


end Lemmas

section Binary32Lemmas

variable {K : Type} [LinearOrderedField K] [FloorRing K]

end Binary32Lemmas

section MouseOffsets

variable {K : Type} [LinearOrderedField K]

end MouseOffsets

end KineticSculpture
